import Mathlib

/-!
Shallow embedding of the mv-realty-backend HTTP service (src/main.go).

The service is a Go HTTP API over a MongoDB store with five collections
(properties, listings, inquiries, appointments, users) plus an image-hosting
collaborator (Cloudinary).  We embed:

* the record shapes (`Property`, `Listing`, `Inquiry`, `Appointment`, `User`),
  with Go zero values as structure-field defaults — this mirrors Go JSON
  decoding, which leaves absent fields at their zero value;
* the store as an in-memory state `DB` holding the typed collections; store
  infrastructure failures (unreachable server, decode errors) are external
  nondeterminism and are out of the model: store calls succeed;
* each handler as a pure function from the request data (already-decoded body,
  path/query parameters, collaborator outcomes) and the current `DB` to a new
  `DB`, an HTTP `Response`, and the list of store operations it issued,
  each tagged with the timeout of the context it was issued under;
* `time.Now()` as an explicit `now : Nat` parameter, and the store-generated
  id for an insert as an explicit `fresh : ObjectID` parameter;
* JSON response bodies stratified to the shapes the service emits: plain text
  (`http.Error`), `null`, one flat object, or an array of flat objects;
  `float64` fields are only carried and compared, never computed on, so they
  are modelled by an opaque integer scalar.
-/

namespace MV

/-- A BSON ObjectID, modelled by its 12-byte (96-bit) numeric value. -/
structure ObjectID where
  val : Nat
deriving DecidableEq

/-- `primitive.NilObjectID`: the zero ObjectID (the Go zero value). -/
def zeroOID : ObjectID := ⟨0⟩

def isHexDigitCh (c : Char) : Bool :=
  c.isDigit || ('a' ≤ c && c ≤ 'f') || ('A' ≤ c && c ≤ 'F')

def hexVal (c : Char) : Nat :=
  if c.isDigit then c.toNat - 48
  else if c.toNat ≥ 97 then c.toNat - 87
  else c.toNat - 55

/-- `primitive.ObjectIDFromHex`: decodes a 24-character hex string; any other
string is rejected (in Go: returns `NilObjectID` and an error). -/
def ObjectIDFromHex (s : String) : Option ObjectID :=
  if s.length = 24 && s.toList.all isHexDigitCh then
    some ⟨s.toList.foldl (fun a c => a * 16 + hexVal c) 0⟩
  else none

/-- Stand-in for `float64` fields (coordinates, price, size): they are only
stored and echoed, never computed on, so an opaque scalar with decidable
equality suffices. -/
abbrev Scalar := Int

structure Property where
  ID : ObjectID := zeroOID
  Title : String := ""
  Developer : String := ""
  Description : String := ""
  Coordinates : Scalar × Scalar := (0, 0)
  MinPrice : Int := 0
  MaxPrice : Int := 0
  Facilities : List String := []
  Images : List String := []
  Built : Int := 0
  CreatedAt : Nat := 0
deriving DecidableEq

structure Listing where
  ID : ObjectID := zeroOID
  PropertyID : String := ""
  Description : String := ""
  Price : Scalar := 0
  MinimumContract : String := ""
  Floor : Int := 0
  Size : Scalar := 0
  Bedroom : Int := 0
  Bathroom : Int := 0
  Furniture : String := ""
  Status : String := ""
  ListingType : String := ""
  FacingDirection : String := ""
  CreatedAt : Nat := 0
  Photos : List String := []
  ListingStatus : String := ""
deriving DecidableEq

structure Inquiry where
  ID : ObjectID := zeroOID
  User_id : String := ""
  Property_id : String := ""
  Message : String := ""
  CreatedAt : Nat := 0
deriving DecidableEq

structure Appointment where
  ID : ObjectID := zeroOID
  UserID : String := ""
  PropertyID : String := ""
  ListingID : String := ""
  AppointmentDate : Nat := 0
  Status : String := ""
  CreatedAt : Nat := 0
deriving DecidableEq

structure User where
  ID : ObjectID := zeroOID
  Name : String := ""
  Email : String := ""
  Phone : String := ""
  CreatedAt : Nat := 0
deriving DecidableEq

/-- The MVDB database: one typed list per collection, in insertion order. -/
structure DB where
  properties : List Property := []
  listings : List Listing := []
  inquiries : List Inquiry := []
  appointments : List Appointment := []
  users : List User := []
deriving DecidableEq

/-- A JSON field value as emitted by this service (ObjectIDs serialize as
their hex string; times as their tick count). -/
inductive JVal where
  | bool (b : Bool)
  | str (s : String)
  | num (n : Int)
  | oid (o : ObjectID)
  | arrStr (xs : List String)
  | arrNum (xs : List Int)
deriving DecidableEq

/-- A JSON response body of this service: `null`, one flat object, or an
array of flat objects (the shapes its handlers emit). -/
inductive Json where
  | null
  | obj (fields : List (String × JVal))
  | arr (objs : List (List (String × JVal)))
deriving DecidableEq

/-- An HTTP response body: plain text (what Go's `http.Error` writes) or a
JSON value (what `json.NewEncoder(w).Encode` writes). -/
inductive Body where
  | text (s : String)
  | json (j : Json)
deriving DecidableEq

structure Response where
  status : Nat
  body : Body
deriving DecidableEq

/-- One store call, tagged with the timeout (in seconds) of the context it
was issued under; `none` means `context.Background()` — no deadline. -/
structure StoreOp where
  op : String
  coll : String
  timeout : Option Nat
deriving DecidableEq

/-- Result of running a handler: the store afterwards, the HTTP response,
and the store operations issued while serving the request. -/
structure HandlerOut where
  db : DB
  resp : Response
  ops : List StoreOp
deriving DecidableEq

/-- Go's `append` on a possibly-nil slice (`none` is the nil slice, the
zero value of `var xs []T`); appending always yields a non-nil slice. -/
def goAppend {α : Type} (s : Option (List α)) (x : α) : Option (List α) :=
  some (s.getD [] ++ [x])

/-- Go's `encoding/json` on a slice: the nil slice marshals to `null`, a
non-nil slice to an array. -/
def goSliceJson {α : Type} (enc : α → List (String × JVal)) :
    Option (List α) → Json
  | none => Json.null
  | some xs => Json.arr (xs.map enc)

/-- The `_id` actually stored by `InsertOne` on a struct whose `_id` field is
tagged `omitempty`: a zero id is omitted and the store generates `fresh`; a
nonzero id marshals through and becomes the document id. -/
def insertedOID (docID fresh : ObjectID) : ObjectID :=
  if docID = zeroOID then fresh else docID

def encodeProperty (p : Property) : List (String × JVal) :=
  (if p.ID = zeroOID then [] else [("property_id", .oid p.ID)]) ++
  [("Title", .str p.Title), ("Developer", .str p.Developer),
   ("Description", .str p.Description),
   ("Coordinates", .arrNum [p.Coordinates.1, p.Coordinates.2]),
   ("MinPrice", .num p.MinPrice), ("MaxPrice", .num p.MaxPrice),
   ("Facilities", .arrStr p.Facilities), ("Images", .arrStr p.Images),
   ("Built", .num p.Built), ("Created_at", .num (Int.ofNat p.CreatedAt))]

def encodeListing (l : Listing) : List (String × JVal) :=
  (if l.ID = zeroOID then [] else [("listing_id", .oid l.ID)]) ++
  [("property_id", .str l.PropertyID), ("description", .str l.Description),
   ("price", .num l.Price), ("minimum_contract", .str l.MinimumContract),
   ("floor", .num l.Floor), ("size", .num l.Size),
   ("bedroom", .num l.Bedroom), ("bathroom", .num l.Bathroom),
   ("furniture", .str l.Furniture), ("status", .str l.Status),
   ("listing_type", .str l.ListingType),
   ("facing_direction", .str l.FacingDirection),
   ("created_at", .num (Int.ofNat l.CreatedAt)),
   ("photos", .arrStr l.Photos), ("listing_status", .str l.ListingStatus)]

def encodeInquiry (i : Inquiry) : List (String × JVal) :=
  (if i.ID = zeroOID then [] else [("inquiry_id", .oid i.ID)]) ++
  [("user_id", .str i.User_id), ("property_id", .str i.Property_id),
   ("message", .str i.Message), ("Created_at", .num (Int.ofNat i.CreatedAt))]

def encodeAppointment (a : Appointment) : List (String × JVal) :=
  (if a.ID = zeroOID then [] else [("appointment_id", .oid a.ID)]) ++
  [("User_id", .str a.UserID), ("Property_id", .str a.PropertyID),
   ("Listing_id", .str a.ListingID),
   ("Appointment_date", .num (Int.ofNat a.AppointmentDate)),
   ("Status", .str a.Status), ("Created_at", .num (Int.ofNat a.CreatedAt))]

def encodeUser (u : User) : List (String × JVal) :=
  (if u.ID = zeroOID then [] else [("user_id", .oid u.ID)]) ++
  [("name", .str u.Name), ("email", .str u.Email), ("phone", .str u.Phone),
   ("created_at", .num (Int.ofNat u.CreatedAt))]

/-- `connectMongoDB`: the startup connection; both the connect and the ping
run under one 10-second context.  Modelled as the store calls it issues. -/
def connectMongoDB : List StoreOp :=
  [⟨"connect", "", some 10⟩, ⟨"ping", "", some 10⟩]

/-- `GET /properties`: find-all under a 5s context, accumulate into a slice
that starts nil, encode.  Cursor/decode failures are out of the model. -/
def getProperties (db : DB) : HandlerOut :=
  let acc := db.properties.foldl goAppend none
  { db := db
    resp := { status := 200, body := .json (goSliceJson encodeProperty acc) }
    ops := [⟨"find", "properties", some 5⟩] }

/-- `GET /inquiries` (handler `getInquires` in the source). -/
def getInquires (db : DB) : HandlerOut :=
  let acc := db.inquiries.foldl goAppend none
  { db := db
    resp := { status := 200, body := .json (goSliceJson encodeInquiry acc) }
    ops := [⟨"find", "inquiries", some 5⟩] }

/-- `GET /appointments`. -/
def getAppointments (db : DB) : HandlerOut :=
  let acc := db.appointments.foldl goAppend none
  { db := db
    resp := { status := 200, body := .json (goSliceJson encodeAppointment acc) }
    ops := [⟨"find", "appointments", some 5⟩] }

/-- `GET /users`.  The source's extra nil-client guard cannot fire once the
process is serving (connect is fatal on failure), so it is not modelled. -/
def getUsers (db : DB) : HandlerOut :=
  let acc := db.users.foldl goAppend none
  { db := db
    resp := { status := 200, body := .json (goSliceJson encodeUser acc) }
    ops := [⟨"find", "users", some 5⟩] }

/-- `GET /listings`. -/
def getListings (db : DB) : HandlerOut :=
  let acc := db.listings.foldl goAppend none
  { db := db
    resp := { status := 200, body := .json (goSliceJson encodeListing acc) }
    ops := [⟨"find", "listings", some 5⟩] }

/-- `POST /add/property`.  `body` is the outcome of decoding the JSON request
body into a `Property` (`none` = parse error); Go decoding fills exactly the
fields the caller supplied, leaving the rest at their zero value. -/
def createProperty (db : DB) (body : Option Property) (now : Nat)
    (fresh : ObjectID) : HandlerOut :=
  match body with
  | none => { db := db, resp := ⟨500, .text "Failed to parse request body"⟩, ops := [] }
  | some property0 =>
    let property := { property0 with CreatedAt := now, Images := [] }
    let newID := insertedOID property.ID fresh
    { db := { db with properties := db.properties ++ [{ property with ID := newID }] }
      resp := ⟨200, .json (.obj [("property_id", .oid newID)])⟩
      ops := [⟨"insertOne", "properties", some 5⟩] }

/-- `POST /add/listing`: referential validation of `property_id` against the
properties collection, then insert. -/
def createListing (db : DB) (body : Option Listing) (now : Nat)
    (fresh : ObjectID) : HandlerOut :=
  match body with
  | none => { db := db, resp := ⟨500, .text "Failed to parse request body"⟩, ops := [] }
  | some listing0 =>
    match ObjectIDFromHex listing0.PropertyID with
    | none =>
      { db := db, resp := ⟨400, .text "Invalid PropertyID format"⟩, ops := [] }
    | some propertyID =>
      match db.properties.find? (fun p => p.ID == propertyID) with
      | none =>
        { db := db, resp := ⟨400, .text "PropertyID does not exist"⟩
          ops := [⟨"findOne", "properties", some 5⟩] }
      | some _ =>
        let listing := { listing0 with CreatedAt := now, Photos := [] }
        let newID := insertedOID listing.ID fresh
        { db := { db with listings := db.listings ++ [{ listing with ID := newID }] }
          resp := ⟨200, .json (.obj [("listing_id", .oid newID)])⟩
          ops := [⟨"findOne", "properties", some 5⟩, ⟨"insertOne", "listings", some 5⟩] }

/-- `POST /add/inquiry`: no validation (the source's TODO), stamp, insert. -/
def createInquiry (db : DB) (body : Option Inquiry) (now : Nat)
    (fresh : ObjectID) : HandlerOut :=
  match body with
  | none => { db := db, resp := ⟨500, .text "Failed to parse request body"⟩, ops := [] }
  | some inquiry0 =>
    let inquiry := { inquiry0 with CreatedAt := now }
    let newID := insertedOID inquiry.ID fresh
    { db := { db with inquiries := db.inquiries ++ [{ inquiry with ID := newID }] }
      resp := ⟨200, .json (.obj [("inquiry_id", .oid newID)])⟩
      ops := [⟨"insertOne", "inquiries", some 5⟩] }

/-- `POST /add/user`: stamp, insert; no email-uniqueness check. -/
def createUser (db : DB) (body : Option User) (now : Nat)
    (fresh : ObjectID) : HandlerOut :=
  match body with
  | none => { db := db, resp := ⟨500, .text "Failed to parse request body"⟩, ops := [] }
  | some user0 =>
    let user := { user0 with CreatedAt := now }
    let newID := insertedOID user.ID fresh
    { db := { db with users := db.users ++ [{ user with ID := newID }] }
      resp := ⟨200, .json (.obj [("user_id", .oid newID)])⟩
      ops := [⟨"insertOne", "users", some 5⟩] }

/-- `GET /check/user?email=...`; Go's `Query().Get` returns `""` both for a
missing and for an empty parameter. -/
def checkUser (db : DB) (email : String) : HandlerOut :=
  if email = "" then
    { db := db, resp := ⟨400, .text "Email query parameter is required"⟩, ops := [] }
  else
    match db.users.find? (fun u => u.Email == email) with
    | none =>
      { db := db, resp := ⟨200, .json (.obj [("exists", .bool false)])⟩
        ops := [⟨"findOne", "users", some 5⟩] }
    | some _ =>
      { db := db, resp := ⟨200, .json (.obj [("exists", .bool true)])⟩
        ops := [⟨"findOne", "users", some 5⟩] }

/-- Outcome of `r.ParseMultipartForm` / `r.FormFile("image")` on the request:
the form fails to parse (malformed or oversized), the `image` field is
missing, or a file was obtained (content opaque — it is only streamed out). -/
inductive MultipartResult where
  | parseError
  | noImageField
  | file
deriving DecidableEq

/-- Outcome of the Cloudinary upload call: an error, or a response carrying
`SecureURL` (possibly empty). -/
inductive UploadOutcome where
  | failure (msg : String)
  | success (secureURL : String)
deriving DecidableEq

/-- `UpdateByID` with a `$push` on `Images`: updates the (at most one)
document whose `_id` equals `id`, appending `url` to its `Images`.  `_id` is
the collection's unique key, so we update the first match. -/
def updateByIDPush : List Property → ObjectID → String → List Property
  | [], _, _ => []
  | p :: ps, id, url =>
    if p.ID = id then { p with Images := p.Images ++ [url] } :: ps
    else p :: updateByIDPush ps id url

/-- `POST /properties/{id}/images` (handler `uploadImage`): the path id is
decoded with the error discarded (`id, _ := ObjectIDFromHex(...)`, so a bad
id silently becomes the zero id); multipart parse and file extraction errors
are 400; Cloudinary init (`cldOk`) and upload failures are 500; an empty
returned URL is 500; otherwise the URL is pushed onto the property's Images
by an update issued under `context.Background()` — no timeout. -/
def uploadImage (db : DB) (pathID : String) (form : MultipartResult)
    (cldOk : Bool) (upload : UploadOutcome) : HandlerOut :=
  let id := (ObjectIDFromHex pathID).getD zeroOID
  match form with
  | .parseError =>
    { db := db, resp := ⟨400, .text "Unable to parse form data"⟩, ops := [] }
  | .noImageField =>
    { db := db, resp := ⟨400, .text "Unable to get the file from form data"⟩, ops := [] }
  | .file =>
    if cldOk then
      match upload with
      | .failure msg =>
        { db := db
          resp := ⟨500, .text ("Failed to upload image to Cloudinary: " ++ msg)⟩
          ops := [] }
      | .success url =>
        if url = "" then
          { db := db, resp := ⟨500, .text "Empty SecureURL returned from Cloudinary"⟩, ops := [] }
        else
          { db := { db with properties := updateByIDPush db.properties id url }
            resp := ⟨200, .json (.obj [("message", .str "Image uploaded successfully"),
                                       ("url", .str url)])⟩
            ops := [⟨"updateByID", "properties", none⟩] }
    else
      { db := db, resp := ⟨500, .text "Failed to initialize Cloudinary"⟩, ops := [] }

/-- Claim C1: a Listing creation request whose `property_id` is a well-formed
id naming no stored Property is answered 400 "PropertyID does not exist" and
the listings collection is unchanged. -/
theorem createListing_missing_property (db : DB) (listing : Listing) (now : Nat)
    (fresh pid : ObjectID)
    (hhex : ObjectIDFromHex listing.PropertyID = some pid)
    (habs : ∀ p ∈ db.properties, p.ID ≠ pid) :
    (createListing db (some listing) now fresh).resp
        = ⟨400, .text "PropertyID does not exist"⟩ ∧
    (createListing db (some listing) now fresh).db.listings = db.listings := by
  have hfind : db.properties.find? (fun p => p.ID == pid) = none := by
    rw [List.find?_eq_none]
    intro p hp
    simpa using habs p hp
  constructor <;> simp [createListing, hhex, hfind]

/-- Witness for C1 at a concrete store with no properties. -/
theorem createListing_missing_property_witness :
    (createListing {} (some { PropertyID := "000000000000000000000001" }) 0 ⟨5⟩).resp
        = ⟨400, .text "PropertyID does not exist"⟩ :=
  (createListing_missing_property {} { PropertyID := "000000000000000000000001" }
    0 ⟨5⟩ ⟨1⟩ (by decide) (by decide)).1

/-- Claim C2: a Listing creation request whose `property_id` names an existing
Property inserts exactly one Listing, with empty Photos and CreatedAt stamped
with the server's current time; the stamping and insert happen only in the
branch where the existence check succeeded (on failure, see C1, nothing is
inserted). -/
theorem createListing_inserts_when_property_exists (db : DB) (listing : Listing)
    (now : Nat) (fresh pid : ObjectID) (prop : Property)
    (hhex : ObjectIDFromHex listing.PropertyID = some pid)
    (hfind : db.properties.find? (fun p => p.ID == pid) = some prop) :
    (createListing db (some listing) now fresh).db.listings.map Listing.Photos
        = db.listings.map Listing.Photos ++ [[]] ∧
    (createListing db (some listing) now fresh).db.listings.map Listing.CreatedAt
        = db.listings.map Listing.CreatedAt ++ [now] ∧
    (createListing db (some listing) now fresh).resp.status = 200 := by
  refine ⟨?_, ?_, ?_⟩ <;> simp [createListing, hhex, hfind]

/-- Witness for C2: one stored Property, a listing referencing it. -/
theorem createListing_inserts_when_property_exists_witness :
    (createListing { properties := [{ ID := ⟨1⟩ }] }
        (some { PropertyID := "000000000000000000000001" }) 7 ⟨5⟩).db.listings.map
        Listing.Photos
      = ({ properties := [{ ID := ⟨1⟩ }] } : DB).listings.map Listing.Photos ++ [[]] :=
  (createListing_inserts_when_property_exists { properties := [{ ID := ⟨1⟩ }] }
    { PropertyID := "000000000000000000000001" } 7 ⟨5⟩ ⟨1⟩ { ID := ⟨1⟩ }
    (by decide) (by decide)).1

/-- Claim C3: a valid Property creation payload is stored with Images equal to
the empty list and CreatedAt equal to the server's current time, whatever
Images or CreatedAt the caller supplied (the quantification over `property`
covers every decoded payload, including ones carrying those fields). -/
theorem createProperty_stamps (db : DB) (property : Property) (now : Nat)
    (fresh : ObjectID) :
    (createProperty db (some property) now fresh).db.properties.map Property.Images
        = db.properties.map Property.Images ++ [[]] ∧
    (createProperty db (some property) now fresh).db.properties.map Property.CreatedAt
        = db.properties.map Property.CreatedAt ++ [now] := by
  constructor <;> simp [createProperty]

/-- Counterexample to claim C4 (ids never taken from the request body): the
`json:"..._id,omitempty"` tags let a caller supply an id, and the
`bson:"_id,omitempty"` tag only omits the zero id on insert, so a supplied
nonzero id becomes the stored document's id and is echoed back — here the
store would have assigned id 2 (resp. 4), but the caller-supplied id 1
(resp. 3) is inserted instead. -/
theorem create_id_from_body_counterexample :
    (createProperty {} (some { ID := ⟨1⟩ }) 0 ⟨2⟩).db.properties.map Property.ID
        = [⟨1⟩] ∧
    (createProperty {} (some { ID := ⟨1⟩ }) 0 ⟨2⟩).resp
        = ⟨200, .json (.obj [("property_id", .oid ⟨1⟩)])⟩ ∧
    (createUser {} (some { ID := ⟨3⟩ }) 0 ⟨4⟩).db.users.map User.ID = [⟨3⟩] := by
  decide

/-- Claim C4 as amended: on every creation endpoint the caller-supplied
timestamp is overridden with the server time and the attachment lists
(Images, Photos) are reset to empty, but the id is store-assigned only when
the caller supplies no id (the zero id); a caller-supplied nonzero id is
used as the inserted document's id. -/
theorem create_id_timestamp_attachment_handling (db : DB) (property : Property)
    (listing : Listing) (inquiry : Inquiry) (user : User) (now : Nat)
    (fresh pid : ObjectID) (prop : Property)
    (hhex : ObjectIDFromHex listing.PropertyID = some pid)
    (hfind : db.properties.find? (fun p => p.ID == pid) = some prop) :
    (createProperty db (some property) now fresh).db.properties
        = db.properties ++ [{ property with
                              CreatedAt := now
                              Images := []
                              ID := insertedOID property.ID fresh }] ∧
    (createListing db (some listing) now fresh).db.listings
        = db.listings ++ [{ listing with
                            CreatedAt := now
                            Photos := []
                            ID := insertedOID listing.ID fresh }] ∧
    (createInquiry db (some inquiry) now fresh).db.inquiries
        = db.inquiries ++ [{ inquiry with
                             CreatedAt := now
                             ID := insertedOID inquiry.ID fresh }] ∧
    (createUser db (some user) now fresh).db.users
        = db.users ++ [{ user with
                         CreatedAt := now
                         ID := insertedOID user.ID fresh }] := by
  refine ⟨?_, ?_, ?_, ?_⟩ <;>
    simp [createProperty, createListing, createInquiry, createUser, hhex, hfind]

/-- Witness for the amended C4 at concrete records. -/
theorem create_id_timestamp_attachment_handling_witness :
    (createUser { properties := [{ ID := ⟨1⟩ }] }
        (some { ID := ⟨3⟩, CreatedAt := 99 }) 7 ⟨4⟩).db.users
      = ({ properties := [{ ID := ⟨1⟩ }] } : DB).users ++
        [{ ({ ID := ⟨3⟩, CreatedAt := 99 } : User) with
           CreatedAt := 7
           ID := insertedOID ⟨3⟩ ⟨4⟩ }] :=
  (create_id_timestamp_attachment_handling { properties := [{ ID := ⟨1⟩ }] }
    {} { PropertyID := "000000000000000000000001" } {} { ID := ⟨3⟩, CreatedAt := 99 }
    7 ⟨4⟩ ⟨1⟩ { ID := ⟨1⟩ } (by decide) (by decide)).2.2.2

/-- Counterexample to claim C5 (every malformed input gets a 4xx): an
unparseable JSON body on `POST /add/property` is answered 500, and an
invalid path id on `POST /properties/{id}/images` is not rejected at all —
the parse error is discarded, the id silently becomes the zero id, and the
request succeeds with 200. -/
theorem malformed_input_counterexample :
    (createProperty {} none 0 ⟨1⟩).resp.status = 500 ∧
    ¬ (400 ≤ (createProperty {} none 0 ⟨1⟩).resp.status ∧
        (createProperty {} none 0 ⟨1⟩).resp.status ≤ 499) ∧
    (uploadImage {} "zz" .file true (.success "https://img")).resp.status = 200 := by
  decide

/-- Claim C5 as amended: malformed multipart forms, a malformed body
`property_id` on listing creation, and a missing email query parameter are
4xx; but a JSON body that does not parse is answered 500 on all four
creation endpoints, and a malformed path id on image upload is silently
ignored rather than rejected. -/
theorem malformed_input_statuses (db : DB) (listing : Listing) (now : Nat)
    (fresh : ObjectID) (pathID : String) (cldOk : Bool) (up : UploadOutcome)
    (hhex : ObjectIDFromHex listing.PropertyID = none) :
    (uploadImage db pathID .parseError cldOk up).resp.status = 400 ∧
    (uploadImage db pathID .noImageField cldOk up).resp.status = 400 ∧
    (createListing db (some listing) now fresh).resp.status = 400 ∧
    (checkUser db "").resp.status = 400 ∧
    (createProperty db none now fresh).resp.status = 500 ∧
    (createListing db none now fresh).resp.status = 500 ∧
    (createInquiry db none now fresh).resp.status = 500 ∧
    (createUser db none now fresh).resp.status = 500 := by
  refine ⟨?_, ?_, ?_, ?_, ?_, ?_, ?_, ?_⟩ <;>
    simp [uploadImage, createListing, checkUser, createProperty, createInquiry,
      createUser, hhex]

/-- Witness for the amended C5 at concrete requests. -/
theorem malformed_input_statuses_witness :
    (createListing {} (some ({ PropertyID := "zz" } : Listing)) 0 ⟨1⟩).resp.status
        = 400 :=
  (malformed_input_statuses {} { PropertyID := "zz" } 0 ⟨1⟩ "p" true
    (.success "u") (by decide)).2.2.1

theorem updateByIDPush_no_match (l : List Property) (id : ObjectID) (url : String)
    (h : ∀ p ∈ l, p.ID ≠ id) : updateByIDPush l id url = l := by
  induction l with
  | nil => rfl
  | cons p ps ih =>
    have hp : p.ID ≠ id := h p (by simp)
    simp [updateByIDPush, hp, ih (fun q hq => h q (by simp [hq]))]

theorem updateByIDPush_split (pre post : List Property) (target : Property)
    (id : ObjectID) (url : String)
    (hpre : ∀ p ∈ pre, p.ID ≠ id) (htarget : target.ID = id) :
    updateByIDPush (pre ++ target :: post) id url
      = pre ++ { target with Images := target.Images ++ [url] } :: post := by
  induction pre with
  | nil => simp [updateByIDPush, htarget]
  | cons p ps ih =>
    have hp : p.ID ≠ id := hpre p (by simp)
    simp [updateByIDPush, hp, ih (fun q hq => hpre q (by simp [hq]))]

/-- Claim C6: an image upload returning a non-empty URL appends that URL to
the end of the Images list of the Property named by the path id, replaces or
removes no existing entry, changes no other field of that Property, leaves
every other stored Property intact, and touches no other collection. -/
theorem uploadImage_appends_url (db : DB) (pathID url : String) (oid : ObjectID)
    (pre post : List Property) (target : Property)
    (hhex : ObjectIDFromHex pathID = some oid)
    (hurl : url ≠ "")
    (hsplit : db.properties = pre ++ target :: post)
    (htarget : target.ID = oid)
    (hpre : ∀ p ∈ pre, p.ID ≠ oid) :
    (uploadImage db pathID .file true (.success url)).db.properties
        = pre ++ { target with Images := target.Images ++ [url] } :: post ∧
    (uploadImage db pathID .file true (.success url)).db.listings = db.listings ∧
    (uploadImage db pathID .file true (.success url)).db.inquiries = db.inquiries ∧
    (uploadImage db pathID .file true (.success url)).db.appointments
        = db.appointments ∧
    (uploadImage db pathID .file true (.success url)).db.users = db.users ∧
    (uploadImage db pathID .file true (.success url)).resp.status = 200 := by
  refine ⟨?_, ?_, ?_, ?_, ?_, ?_⟩ <;>
    simp [uploadImage, hhex, hurl, hsplit, updateByIDPush_split pre post target
      oid url hpre htarget]

/-- Witness for C6: two stored Properties, attaching to the second. -/
theorem uploadImage_appends_url_witness :
    (uploadImage { properties := [{ ID := ⟨1⟩ }, { ID := ⟨2⟩, Images := ["a"] }] }
        "000000000000000000000002" .file true (.success "https://img")).db.properties
      = [{ ID := ⟨1⟩ }] ++ { ({ ID := ⟨2⟩, Images := ["a"] } : Property) with
          Images := ["a"] ++ ["https://img"] } :: [] :=
  (uploadImage_appends_url
    { properties := [{ ID := ⟨1⟩ }, { ID := ⟨2⟩, Images := ["a"] }] }
    "000000000000000000000002" "https://img" ⟨2⟩ [{ ID := ⟨1⟩ }] []
    { ID := ⟨2⟩, Images := ["a"] } (by decide) (by decide) (by decide)
    (by decide) (by decide)).1

/-- Claim C7: an image upload whose valid path id names no stored Property
still succeeds — 200 with the success message and URL — while the update
matches zero documents, the whole store is unchanged, and the only store
operation issued is the update (no existence check precedes it). -/
theorem uploadImage_nonexistent_id (db : DB) (pathID url : String)
    (oid : ObjectID)
    (hhex : ObjectIDFromHex pathID = some oid)
    (hurl : url ≠ "")
    (habs : ∀ p ∈ db.properties, p.ID ≠ oid) :
    (uploadImage db pathID .file true (.success url)).db = db ∧
    (uploadImage db pathID .file true (.success url)).resp
        = ⟨200, .json (.obj [("message", .str "Image uploaded successfully"),
                             ("url", .str url)])⟩ ∧
    (uploadImage db pathID .file true (.success url)).ops
        = [⟨"updateByID", "properties", none⟩] := by
  refine ⟨?_, ?_, ?_⟩ <;>
    simp [uploadImage, hhex, hurl, updateByIDPush_no_match db.properties oid url habs]

/-- Witness for C7: empty store, valid id. -/
theorem uploadImage_nonexistent_id_witness :
    (uploadImage {} "000000000000000000000001" .file true
        (.success "https://img")).db = {} :=
  (uploadImage_nonexistent_id {} "000000000000000000000001" "https://img" ⟨1⟩
    (by decide) (by decide) (by decide)).1

/-- Counterexample to claim C8 (every store operation runs under a 5-unit
request-scoped timeout): the property update issued by a successful image
upload is issued under `context.Background()` and carries no timeout. -/
theorem uploadImage_no_timeout_counterexample :
    ((uploadImage {} "000000000000000000000001" .file true
        (.success "https://img")).ops.all (fun o => o.timeout == some 5)) = false ∧
    (uploadImage {} "000000000000000000000001" .file true
        (.success "https://img")).ops = [⟨"updateByID", "properties", none⟩] := by
  decide

/-- Claim C8 as amended: every store operation issued while serving a request
runs under a request-scoped 5-unit timeout, except the property update of
the image-attach handler, which is issued under a background context with no
timeout at all; the initial connection (connect and ping) runs under a
10-unit timeout. -/
theorem store_op_timeouts (db : DB) (bodyP : Option Property)
    (bodyL : Option Listing) (bodyI : Option Inquiry) (bodyU : Option User)
    (now : Nat) (fresh : ObjectID) (email pathID : String)
    (form : MultipartResult) (cldOk : Bool) (up : UploadOutcome) :
    ((getProperties db).ops.all (fun o => o.timeout == some 5)) = true ∧
    ((getInquires db).ops.all (fun o => o.timeout == some 5)) = true ∧
    ((getAppointments db).ops.all (fun o => o.timeout == some 5)) = true ∧
    ((getUsers db).ops.all (fun o => o.timeout == some 5)) = true ∧
    ((getListings db).ops.all (fun o => o.timeout == some 5)) = true ∧
    ((createProperty db bodyP now fresh).ops.all
        (fun o => o.timeout == some 5)) = true ∧
    ((createListing db bodyL now fresh).ops.all
        (fun o => o.timeout == some 5)) = true ∧
    ((createInquiry db bodyI now fresh).ops.all
        (fun o => o.timeout == some 5)) = true ∧
    ((createUser db bodyU now fresh).ops.all
        (fun o => o.timeout == some 5)) = true ∧
    ((checkUser db email).ops.all (fun o => o.timeout == some 5)) = true ∧
    ((uploadImage db pathID form cldOk up).ops.all
        (fun o => o.timeout == none)) = true ∧
    (connectMongoDB.all (fun o => o.timeout == some 10)) = true := by
  refine ⟨by rfl, by rfl, by rfl, by rfl, by rfl, ?_, ?_, ?_, ?_, ?_, ?_, by rfl⟩
  · cases bodyP with
    | none => rfl
    | some p => rfl
  · cases bodyL with
    | none => rfl
    | some l =>
      cases hx : ObjectIDFromHex l.PropertyID with
      | none => simp [createListing, hx]
      | some pid =>
        cases hf : db.properties.find? (fun p => p.ID == pid) with
        | none => simp [createListing, hx, hf]
        | some p => simp [createListing, hx, hf]
  · cases bodyI with
    | none => rfl
    | some i => rfl
  · cases bodyU with
    | none => rfl
    | some u => rfl
  · by_cases he : email = ""
    · simp [checkUser, he]
    · simp only [checkUser, if_neg he]
      cases hf : db.users.find? (fun u => u.Email == email) with
      | none => rfl
      | some u => rfl
  · cases form with
    | parseError => rfl
    | noImageField => rfl
    | file =>
      cases cldOk with
      | false => rfl
      | true =>
        cases up with
        | failure msg => rfl
        | success url =>
          by_cases hu : url = ""
          · simp [uploadImage, hu]
          · simp [uploadImage, hu]

/-- Claim C9: a user-existence check with a non-empty email answers 200 with
exactly the one-field object `{"exists": false}` when no stored User has
that email, and exactly `{"exists": true}` (no other field of the found
User) when one does; the store is unchanged either way. -/
theorem checkUser_exists_flag (db : DB) (email : String) (hne : email ≠ "") :
    (checkUser db email).db = db ∧
    ((∀ u ∈ db.users, u.Email ≠ email) →
      (checkUser db email).resp
        = ⟨200, .json (.obj [("exists", .bool false)])⟩) ∧
    (∀ u, db.users.find? (fun v => v.Email == email) = some u →
      (checkUser db email).resp
        = ⟨200, .json (.obj [("exists", .bool true)])⟩) := by
  refine ⟨?_, fun h => ?_, fun u hu => ?_⟩
  · simp only [checkUser, if_neg hne]
    cases hf : db.users.find? (fun v => v.Email == email) with
    | none => rfl
    | some u => rfl
  · have hf : db.users.find? (fun v => v.Email == email) = none := by
      rw [List.find?_eq_none]
      intro v hv
      simpa using h v hv
    simp [checkUser, if_neg hne, hf]
  · simp [checkUser, if_neg hne, hu]

/-- Witness for C9: no stored user has the queried email. -/
theorem checkUser_exists_flag_witness :
    (checkUser {} "a@x.com").resp
        = ⟨200, .json (.obj [("exists", .bool false)])⟩ :=
  (checkUser_exists_flag {} "a@x.com" (by decide)).2.1 (by decide)

/-- Claim C10: each list endpoint on an empty collection answers with the
JSON literal `null` (the nil slice, never appended to, marshals to `null`),
not the empty array. -/
theorem list_endpoints_empty_null (db : DB) :
    (db.properties = [] → (getProperties db).resp.body = .json Json.null) ∧
    (db.inquiries = [] → (getInquires db).resp.body = .json Json.null) ∧
    (db.appointments = [] → (getAppointments db).resp.body = .json Json.null) ∧
    (db.users = [] → (getUsers db).resp.body = .json Json.null) ∧
    (db.listings = [] → (getListings db).resp.body = .json Json.null) := by
  refine ⟨fun h => ?_, fun h => ?_, fun h => ?_, fun h => ?_, fun h => ?_⟩ <;>
    simp [getProperties, getInquires, getAppointments, getUsers, getListings,
      h, goSliceJson]

/-- Witness for C10: the empty store. -/
theorem list_endpoints_empty_null_witness :
    (getProperties {}).resp.body = .json Json.null :=
  (list_endpoints_empty_null {}).1 rfl

end MV
